import Mathlib

/-!
A shallow embedding of the task-manager HTTP service (`src/main.py`) and
proofs of its behavioural properties.

The datastore is modelled as an in-memory list of rows (`Store`), HTTP
responses as `Except Nat α` values paired with the post-request store
(the `Nat` of the error constructor is the HTTP status code), and the
request-body shapes as structures mirroring the pydantic models
`TaskCreate` / `TaskUpdate`.  Pydantic field validation (which runs
before a handler body) is modelled by boolean validity predicates
checked at the top of each handler; an invalid body yields `422` and
leaves the store untouched, exactly as the framework rejects the
request before the handler runs.  Timestamps are abstract `Nat` clock
values passed in by the caller, and calendar dates are `Nat` codes.
String trimming models Python `str.strip()` via the list-level `strip`
defined below.
-/

namespace TaskApi

/-- A row of the `tasks` table (class `Task` in `main.py`). -/
structure Task where
  id : Nat
  title : String
  description : String
  priority : String
  status : String
  due_date : Option Nat
  completed : Bool
  created_at : Nat
  updated_at : Nat
deriving DecidableEq, Repr

/-- The datastore: the `tasks` table plus the autoincrement counter. -/
structure Store where
  tasks : List Task
  nextId : Nat
deriving DecidableEq, Repr

deriving instance DecidableEq for Except

/-- The regex `^(low|medium|high)$` used on `priority` fields. -/
def validPriority (s : String) : Bool :=
  s == "low" || s == "medium" || s == "high"

/-- The regex `^(open|in_progress|done)$` used on `status` fields. -/
def validStatus (s : String) : Bool :=
  s == "open" || s == "in_progress" || s == "done"

/-- Python's `str.strip()`: remove leading and trailing whitespace. -/
def strip (s : String) : String :=
  String.mk (((s.data.dropWhile Char.isWhitespace).reverse.dropWhile Char.isWhitespace).reverse)

/-- Python's `x or d` for an optional string `x` (`None` and `""` are falsy). -/
def orDefault (o : Option String) (d : String) : String :=
  match o with
  | none => d
  | some s => if s.isEmpty then d else s

/-- Request body of `POST /tasks` (pydantic model `TaskCreate`). -/
structure TaskCreate where
  title : String
  description : Option String
  priority : Option String
  dueDate : Option Nat
deriving DecidableEq, Repr

/-- Pydantic validation of `TaskCreate`: `title` has `min_length=1,
max_length=255` (checked on the raw, untrimmed string) and `priority`,
when present, must match the enum regex. -/
def TaskCreate.valid (p : TaskCreate) : Bool :=
  1 ≤ p.title.length && p.title.length ≤ 255 &&
    (match p.priority with
     | none => true
     | some s => validPriority s)

/-- Handler `create_task` (`POST /tasks`).  On a valid body it inserts a
new row with the trimmed title, stripped description, defaulted
priority, `status = "open"`, `completed = False`, fresh id and
timestamps; an invalid body is rejected with 422 before any write. -/
def create_task (payload : TaskCreate) (st : Store) (now : Nat) :
    Except Nat Task × Store :=
  if payload.valid then
    let t : Task :=
      { id := st.nextId
        title := strip payload.title
        description := strip (orDefault payload.description "")
        priority := orDefault payload.priority "medium"
        status := "open"
        due_date := payload.dueDate
        completed := false
        created_at := now
        updated_at := now }
    (Except.ok t, { tasks := st.tasks ++ [t], nextId := st.nextId + 1 })
  else
    (Except.error 422, st)

/-- Request body of `PATCH /tasks/{id}` (pydantic model `TaskUpdate`);
every field is optional and `none` models an absent (or JSON `null`)
field. -/
structure TaskUpdate where
  title : Option String
  description : Option String
  priority : Option String
  status : Option String
  dueDate : Option Nat
  completed : Option Bool
deriving DecidableEq, Repr

/-- Pydantic validation of `TaskUpdate`: a supplied `title` must have
raw length 1–255, a supplied `priority` / `status` must match its enum
regex. -/
def TaskUpdate.valid (p : TaskUpdate) : Bool :=
  (match p.title with
   | none => true
   | some s => 1 ≤ s.length && s.length ≤ 255) &&
  (match p.priority with
   | none => true
   | some s => validPriority s) &&
  (match p.status with
   | none => true
   | some s => validStatus s)

/-- `db.query(Task).filter(Task.id == task_id).first()`. -/
def findTask (st : Store) (task_id : Nat) : Option Task :=
  st.tasks.find? (fun t => t.id == task_id)

/-- The five per-field assignments of `update_task` that precede the
`completed` block, in source order: title (trimmed, falling back to the
stored title when the trim is empty), description, priority, status and
due date. -/
def applyFields (p : TaskUpdate) (t : Task) : Task :=
  let t := match p.title with
    | none => t
    | some s => { t with title := if (strip s).isEmpty then t.title else strip s }
  let t := match p.description with
    | none => t
    | some d => { t with description := d }
  let t := match p.priority with
    | none => t
    | some pr => { t with priority := pr }
  let t := match p.status with
    | none => t
    | some s => { t with status := s }
  match p.dueDate with
  | none => t
  | some d => { t with due_date := some d }

/-- The `completed` block of `update_task`: assign `completed`, then
force `status` to `"done"` when it became true, and reset a `"done"`
status to `"open"` when it became false. -/
def applyCompleted (c : Option Bool) (t : Task) : Task :=
  match c with
  | none => t
  | some b =>
    let t := { t with completed := b }
    let t := if t.completed && !(t.status == "done") then { t with status := "done" } else t
    if !t.completed && t.status == "done" then { t with status := "open" } else t

/-- The whole mutation `update_task` performs on the row it found,
including the `updated_at` refresh done by the ORM `onupdate` hook at
commit time. -/
def applyUpdate (p : TaskUpdate) (t : Task) (now : Nat) : Task :=
  { applyCompleted p.completed (applyFields p t) with updated_at := now }

/-- Handler `update_task` (`PATCH /tasks/{id}`): body validation (422),
row lookup (404), then the partial update. -/
def update_task (task_id : Nat) (payload : TaskUpdate) (st : Store) (now : Nat) :
    Except Nat Task × Store :=
  if payload.valid then
    match findTask st task_id with
    | none => (Except.error 404, st)
    | some t =>
      let t' := applyUpdate payload t now
      (Except.ok t',
       { st with tasks := st.tasks.map (fun u => if u.id == task_id then t' else u) })
  else
    (Except.error 422, st)

/-- Handler `delete_task` (`DELETE /tasks/{id}`): 404 when the id is
absent, otherwise the row is removed and the response is empty
(HTTP 204). -/
def delete_task (task_id : Nat) (st : Store) : Except Nat Unit × Store :=
  match findTask st task_id with
  | none => (Except.error 404, st)
  | some _ =>
    (Except.ok (), { st with tasks := st.tasks.filter (fun t => !(t.id == task_id)) })

/-- SQL `LIKE` pattern matching over character lists: `%` matches any
sequence, `_` matches exactly one character, every other pattern
character matches itself, and the pattern must cover the whole string. -/
def likeMatch (pat s : List Char) : Bool :=
  match pat, s with
  | [], s => s.isEmpty
  | p :: ps, s =>
    if p = '%' then
      likeMatch ps s ||
        (match s with
         | [] => false
         | _ :: s' => likeMatch (p :: ps) s')
    else
      match s with
      | [] => false
      | c :: s' => (p == '_' || p == c) && likeMatch ps s'
termination_by pat.length + s.length

/-- SQLAlchemy's `ilike`: case-insensitive `LIKE`, modelled by lowering
both the pattern and the string character-wise. -/
def ilike (s pattern : String) : Bool :=
  likeMatch (pattern.toList.map Char.toLower) (s.toList.map Char.toLower)

/-- Query parameters of `GET /tasks`. -/
structure ListParams where
  q : Option String
  status : Option String
  priority : Option String
  show_completed : Bool
  limit : Nat
deriving DecidableEq, Repr

/-- The FastAPI `Query(...)` defaults of `GET /tasks`. -/
def defaultListParams : ListParams :=
  { q := none, status := none, priority := none, show_completed := true, limit := 200 }

/-- Query-parameter validation of `GET /tasks`: enum regexes on
`status` / `priority` and `ge=1, le=1000` on `limit`. -/
def ListParams.valid (p : ListParams) : Bool :=
  (match p.status with
   | none => true
   | some s => validStatus s) &&
  (match p.priority with
   | none => true
   | some s => validPriority s) &&
  (1 ≤ p.limit && p.limit ≤ 1000)

/-- The successive `query.filter(...)` calls of `list_tasks`, in source
order; a filter guarded by `if q:` (Python truthiness) is skipped for an
absent or empty parameter. -/
def filterTasks (p : ListParams) (ts : List Task) : List Task :=
  let ts := match p.q with
    | none => ts
    | some q =>
      if q.isEmpty then ts
      else ts.filter (fun t =>
        ilike t.title ("%" ++ q ++ "%") || ilike t.description ("%" ++ q ++ "%"))
  let ts := match p.status with
    | none => ts
    | some s => if s.isEmpty then ts else ts.filter (fun t => t.status == s)
  let ts := match p.priority with
    | none => ts
    | some pr => if pr.isEmpty then ts else ts.filter (fun t => t.priority == pr)
  if p.show_completed then ts else ts.filter (fun t => t.completed == false)

/-- `ORDER BY created_at DESC` as a binary relation on rows. -/
def createdDesc (a b : Task) : Prop :=
  b.created_at ≤ a.created_at

instance : DecidableRel createdDesc :=
  fun a b => Nat.decLe b.created_at a.created_at

instance : IsTotal Task createdDesc :=
  ⟨fun a b => Nat.le_total b.created_at a.created_at⟩

instance : IsTrans Task createdDesc :=
  ⟨fun _ _ _ h h' => Nat.le_trans h' h⟩

/-- Handler `list_tasks` (`GET /tasks`): validate the query parameters,
apply the conjunctive filters, order by `created_at` descending and
truncate to `limit`. -/
def list_tasks (p : ListParams) (st : Store) : Except Nat (List Task) :=
  if p.valid then
    Except.ok (((filterTasks p st.tasks).insertionSort createdDesc).take p.limit)
  else
    Except.error 422

/-- Response body of `GET /test` together with its HTTP status. -/
structure TestInfo where
  statusCode : Nat
  backend : String
  database : String
deriving DecidableEq, Repr

/-- Handler `test_database` (`GET /test`): run the no-op connectivity
probe, whose outcome is the `probe` argument (`Except.error e` models
`SELECT 1` raising an exception with message `e`), and report the
result inline; both branches return HTTP 200. -/
def test_database (probe : Except String Unit) : TestInfo :=
  { statusCode := 200
    backend := "running"
    database :=
      match probe with
      | Except.ok _ => "connected"
      | Except.error e => "error: " ++ String.mk (e.data.take 120) }

/-! Concrete fixtures used by witnesses and counterexamples. -/

/-- A stored task with `status = "open"`. -/
def task1 : Task :=
  { id := 1, title := "Buy milk", description := "groceries", priority := "high",
    status := "open", due_date := none, completed := false,
    created_at := 10, updated_at := 10 }

/-- A stored task with `status = "done"`, `completed = true`. -/
def task2 : Task :=
  { id := 2, title := "Write report", description := "", priority := "medium",
    status := "done", due_date := some 100, completed := true,
    created_at := 20, updated_at := 20 }

/-- A two-row store. -/
def st1 : Store := { tasks := [task1, task2], nextId := 3 }

/-- An empty store. -/
def st0 : Store := { tasks := [], nextId := 1 }

/-- An update body that supplies nothing. -/
def updNone : TaskUpdate :=
  { title := none, description := none, priority := none, status := none,
    dueDate := none, completed := none }

/-- Update body: explicit `status = "in_progress"` and `completed = true`. -/
def updTrue : TaskUpdate := { updNone with status := some "in_progress", completed := some true }

/-- Update body: explicit `status = "done"` and `completed = false`. -/
def updFalse2 : TaskUpdate := { updNone with status := some "done", completed := some false }

/-- Update body: only `completed = true`. -/
def updCT : TaskUpdate := { updNone with completed := some true }

/-- Update body: a whitespace-only title. -/
def updWs : TaskUpdate := { updNone with title := some "   " }

/-- Update body: an empty title (rejected by pydantic's `min_length=1`). -/
def updEmptyTitle : TaskUpdate := { updNone with title := some "" }

/-- Update body: only `priority = "low"`. -/
def updPr : TaskUpdate := { updNone with priority := some "low" }

/-- Update body: only `dueDate`. -/
def updDue : TaskUpdate := { updNone with dueDate := some 42 }

/-- `task1` after an update that forced its status to done at time 5. -/
def task1done : Task := { task1 with status := "done", completed := true, updated_at := 5 }

/-- `task1` after an update that left every request-body field unchanged. -/
def task1touched : Task := { task1 with updated_at := 5 }

/-- `task1` after an update that set only its priority. -/
def task1pr : Task := { task1 with priority := "low", updated_at := 5 }

/-- `task2` after an update that set only its due date. -/
def task2due : Task := { task2 with due_date := some 42, updated_at := 5 }

/-- A row whose title `"xyz"` LIKE-matches the query `"x_z"` without
containing it as a substring. -/
def qTask : Task :=
  { id := 7, title := "xyz", description := "", priority := "low", status := "open",
    due_date := none, completed := false, created_at := 1, updated_at := 1 }

/-- A one-row store around `qTask`. -/
def stQ : Store := { tasks := [qTask], nextId := 8 }

/-- List parameters with the free-text query `"milk"`. -/
def pQ : ListParams := { defaultListParams with q := some "milk" }

/-- List parameters with the free-text query `"x_z"`. -/
def pWild : ListParams := { defaultListParams with q := some "x_z" }

/-- List parameters with an out-of-range limit. -/
def pBig : ListParams := { defaultListParams with limit := 2000 }

/-- A valid create payload whose title carries surrounding whitespace. -/
def goodCreate : TaskCreate :=
  { title := " Buy eggs ", description := some " d ", priority := some "high", dueDate := some 7 }

/-- The row `create_task goodCreate st0 0` inserts. -/
def goodTask : Task :=
  { id := 1, title := "Buy eggs", description := "d", priority := "high",
    status := "open", due_date := some 7, completed := false,
    created_at := 0, updated_at := 0 }

/-- `TaskCreate.valid` unfolded to a proposition. -/
theorem TaskCreate.valid_iff (p : TaskCreate) :
    p.valid = true ↔
      (1 ≤ p.title.length ∧ p.title.length ≤ 255 ∧
        ∀ s, p.priority = some s → validPriority s = true) := by
  unfold TaskCreate.valid
  cases p.priority <;> simp [Bool.and_eq_true, and_assoc]

/-- C1 counterexample: the all-whitespace title `" "` is empty after
trimming, yet the create request is accepted (the raw title has length
1, which passes validation) and the stored title is the empty string. -/
theorem create_trim_counterexample :
    strip " " = "" ∧
    (create_task { title := " ", description := none, priority := none, dueDate := none }
        st0 0).1 =
      Except.ok { id := 1, title := "", description := "", priority := "medium",
                  status := "open", due_date := none, completed := false,
                  created_at := 0, updated_at := 0 } := by
  exact ⟨by decide, by decide⟩

/-- C1 (amended): a create request fails with 422 — rejected before any
datastore write — exactly when the supplied raw title (before trimming)
is empty or longer than 255 characters, or the supplied priority is
outside `{low, medium, high}`; every other create request succeeds and
stores the title trimmed of surrounding whitespace, with status `open`
and completed `false`. -/
theorem create_task_spec (p : TaskCreate) (st : Store) (now : Nat) :
    ((create_task p st now).1 = Except.error 422 ↔
      ¬(1 ≤ p.title.length ∧ p.title.length ≤ 255 ∧
        ∀ s, p.priority = some s → validPriority s = true)) ∧
    ((create_task p st now).1 = Except.error 422 → (create_task p st now).2 = st) ∧
    (∀ t, (create_task p st now).1 = Except.ok t →
      t.title = strip p.title ∧ t.status = "open" ∧ t.completed = false ∧
      t ∈ (create_task p st now).2.tasks) := by
  by_cases hv : p.valid = true
  · have hv' := (TaskCreate.valid_iff p).mp hv
    simp only [create_task, hv, if_true]
    refine ⟨?_, ?_, ?_⟩
    · simp only [reduceCtorEq, false_iff, not_not]
      exact hv'
    · intro h
      exact absurd h (by simp)
    · intro t ht
      cases ht
      exact ⟨rfl, rfl, rfl, by simp⟩
  · have hv' : ¬(1 ≤ p.title.length ∧ p.title.length ≤ 255 ∧
        ∀ s, p.priority = some s → validPriority s = true) :=
      fun h => hv ((TaskCreate.valid_iff p).mpr h)
    simp only [create_task, hv, if_false, Bool.false_eq_true]
    exact ⟨by simp [hv'], by simp, fun t ht => by cases ht⟩

/-- C1 witness: the valid payload `goodCreate` succeeds and stores the
trimmed title. -/
theorem create_task_spec_witness :
    goodTask.title = strip " Buy eggs " ∧ goodTask.status = "open" ∧
    goodTask.completed = false ∧ goodTask ∈ (create_task goodCreate st0 0).2.tasks :=
  (create_task_spec goodCreate st0 0).2.2 goodTask rfl

/-! Helper lemmas about the update handler. -/

/-- A successful `update_task` found a row and returned its mutation. -/
theorem update_task_ok (task_id : Nat) (p : TaskUpdate) (st : Store) (now : Nat)
    (t' : Task) (h : (update_task task_id p st now).1 = Except.ok t') :
    ∃ t0, findTask st task_id = some t0 ∧ p.valid = true ∧ t' = applyUpdate p t0 now := by
  by_cases hv : p.valid = true
  · simp only [update_task, hv, if_true] at h
    cases hf : findTask st task_id with
    | none => rw [hf] at h; cases h
    | some t0 =>
      rw [hf] at h
      cases h
      exact ⟨t0, rfl, hv, rfl⟩
  · simp only [update_task, hv, Bool.false_eq_true, if_false] at h
    cases h

/-- On success, the store rewrites the found row in place. -/
theorem update_task_ok_store (task_id : Nat) (p : TaskUpdate) (st : Store) (now : Nat)
    (t' : Task) (h : (update_task task_id p st now).1 = Except.ok t') :
    (update_task task_id p st now).2.tasks =
      st.tasks.map (fun u => if u.id == task_id then t' else u) := by
  obtain ⟨t0, hf, hv, ht⟩ := update_task_ok task_id p st now t' h
  simp only [update_task, hv, if_true, hf]
  rw [ht]

/-- Closed form of the five sequential field assignments. -/
theorem applyFields_eq (p : TaskUpdate) (t : Task) :
    applyFields p t =
      { t with
        title := match p.title with
          | none => t.title
          | some s => if (strip s).isEmpty then t.title else strip s
        description := p.description.getD t.description
        priority := p.priority.getD t.priority
        status := p.status.getD t.status
        due_date := p.dueDate.or t.due_date } := by
  unfold applyFields
  cases p.title <;> cases p.description <;> cases p.priority <;>
    cases p.status <;> cases p.dueDate <;> rfl

/-- Closed form of the `completed` block when `completed` is supplied. -/
theorem applyCompleted_eq (b : Bool) (t : Task) :
    applyCompleted (some b) t =
      { t with
        completed := b
        status := if b then "done" else (if t.status = "done" then "open" else t.status) } := by
  cases b <;> by_cases h : t.status = "done" <;> simp [applyCompleted, h]

/-- The `completed` block is skipped when `completed` is absent. -/
theorem applyCompleted_none (t : Task) : applyCompleted none t = t := rfl

/-- C2: in a successful partial update that supplies `completed`, the
side effect is applied after the explicit assignments and wins: when
`completed = true` the returned status is `"done"` whatever explicit
status the same request carried, and when `completed = false` and the
status after the explicit assignments is `"done"` the returned status
is `"open"`. -/
theorem update_completed_wins (task_id : Nat) (p : TaskUpdate) (st : Store) (now : Nat) :
    (p.completed = some true →
      ∀ t', (update_task task_id p st now).1 = Except.ok t' → t'.status = "done") ∧
    (p.completed = some false →
      ∀ t0, findTask st task_id = some t0 →
        (applyFields p t0).status = "done" →
        ∀ t', (update_task task_id p st now).1 = Except.ok t' → t'.status = "open") := by
  constructor
  · intro hc t' ht
    obtain ⟨t0, hf, hv, rfl⟩ := update_task_ok task_id p st now t' ht
    simp [applyUpdate, hc, applyCompleted_eq]
  · intro hc t0 hf hd t' ht
    obtain ⟨t0', hf', hv, rfl⟩ := update_task_ok task_id p st now t' ht
    rw [hf] at hf'
    cases hf'
    simp [applyUpdate, hc, applyCompleted_eq, hd]

/-- C2 witness: updating `task1` with `status = "in_progress",
completed = true` returns status `"done"`; updating it with
`status = "done", completed = false` returns status `"open"`. -/
theorem update_completed_wins_witness :
    task1done.status = "done" ∧ task1touched.status = "open" :=
  ⟨(update_completed_wins 1 updTrue st1 5).1 rfl task1done (by decide),
   (update_completed_wins 1 updFalse2 st1 5).2 rfl task1 (by decide) (by decide)
     task1touched (by decide)⟩

/-- C3: a successful partial update that supplies `completed` always
returns a task satisfying `completed = true ↔ status = "done"`. -/
theorem update_completed_invariant (task_id : Nat) (p : TaskUpdate) (st : Store) (now : Nat)
    (hc : p.completed ≠ none) :
    ∀ t', (update_task task_id p st now).1 = Except.ok t' →
      (t'.completed = true ↔ t'.status = "done") := by
  intro t' ht
  obtain ⟨t0, hf, hv, rfl⟩ := update_task_ok task_id p st now t' ht
  obtain ⟨b, hb⟩ := Option.ne_none_iff_exists'.mp hc
  cases b
  · by_cases hd : (applyFields p t0).status = "done" <;>
      simp [applyUpdate, hb, applyCompleted_eq, hd]
  · simp [applyUpdate, hb, applyCompleted_eq]

/-- C3 witness: updating `task1` with only `completed = true` returns a
row with `completed = true` and `status = "done"`. -/
theorem update_completed_invariant_witness :
    task1done.completed = true ↔ task1done.status = "done" :=
  update_completed_invariant 1 updCT st1 5 (by decide) task1done (by decide)

/-- C4 counterexample: an update supplying the empty title `""` — which
is empty after trimming — is not a silent no-op: pydantic's
`min_length=1` rejects the request with 422 (even though the target row
exists), so the existing-title-retained behaviour does not extend to
the empty string. -/
theorem update_empty_title_counterexample :
    strip "" = "" ∧ (findTask st1 1).isSome = true ∧
    update_task 1 updEmptyTitle st1 5 = (Except.error 422, st1) := by
  exact ⟨by decide, by decide, by decide⟩

/-- C4 (amended): for every partial-update request whose supplied title
passes shape validation (raw length 1–255), the stored title is the
trimmed title, except that when trimming yields the empty string the
existing title is retained unchanged and the update is a silent no-op
for that field rather than an error: a whitespace-only title of
admissible raw length never causes a validation error. -/
theorem update_title_trim (task_id : Nat) (p : TaskUpdate) (st : Store) (now : Nat) :
    (∀ s, p.title = some s →
      ∀ t0, findTask st task_id = some t0 →
      ∀ t', (update_task task_id p st now).1 = Except.ok t' →
        t'.title = (if (strip s).isEmpty then t0.title else strip s) ∧
        t' ∈ (update_task task_id p st now).2.tasks) ∧
    (∀ s, p.title = some s → 1 ≤ s.length → s.length ≤ 255 →
      (∀ pr, p.priority = some pr → validPriority pr = true) →
      (∀ sv, p.status = some sv → validStatus sv = true) →
      (update_task task_id p st now).1 ≠ Except.error 422) := by
  constructor
  · intro s hs t0 hf t' ht
    obtain ⟨t0', hf', hv, htv⟩ := update_task_ok task_id p st now t' ht
    rw [hf] at hf'
    cases hf'
    constructor
    · rw [htv]
      simp [applyUpdate, applyFields_eq, hs]
      cases hc : p.completed with
      | none => simp [applyCompleted_none]
      | some b => simp [applyCompleted_eq]
    · rw [update_task_ok_store task_id p st now t' ht]
      have hm : t0 ∈ st.tasks := List.mem_of_find?_eq_some hf
      have hid : (t0.id == task_id) = true := by
        have := List.find?_some hf
        simpa using this
      have := List.mem_map_of_mem (fun u => if u.id == task_id then t' else u) hm
      simpa [hid] using this
  · intro s hs h1 h255 hpr hsv
    have hv : p.valid = true := by
      unfold TaskUpdate.valid
      rw [hs]
      cases hp : p.priority <;> cases hq : p.status <;>
        simp_all [Bool.and_eq_true]
    simp only [update_task, hv, if_true]
    cases hf : findTask st task_id <;> simp

/-- C4 witness: updating `task1` with the whitespace-only title `"   "`
succeeds and leaves the stored title `"Buy milk"` unchanged. -/
theorem update_title_trim_witness :
    (task1touched.title =
      (if (strip "   ").isEmpty then task1.title else strip "   ") ∧
      task1touched ∈ (update_task 1 updWs st1 5).2.tasks) ∧
    (update_task 1 updWs st1 5).1 ≠ Except.error 422 :=
  ⟨(update_title_trim 1 updWs st1 5).1 "   " rfl task1 (by decide) task1touched (by decide),
   (update_title_trim 1 updWs st1 5).2 "   " rfl (by decide) (by decide)
     (fun pr hpr => by cases hpr) (fun sv hsv => by cases hsv)⟩

/-- C5 counterexample: a successful update supplying only
`completed = true` changes the absent `status` field: `task1` has
status `"open"` before the update and the returned task has status
`"done"`. -/
theorem update_frame_counterexample :
    updCT.status = none ∧ findTask st1 1 = some task1 ∧ task1.status = "open" ∧
    (update_task 1 updCT st1 5).1 = Except.ok task1done ∧
    task1done.status ≠ task1.status := by
  exact ⟨rfl, by decide, rfl, by decide, by decide⟩

/-- C5 (amended): in every successful partial update, `id` and
`createdAt` are preserved and every absent request-body field keeps its
prior value, with one exception: the absent `status` field may still
change through the side effect of a supplied `completed` field (when
`completed` is also absent, status is preserved).  In particular a
request that sets `status = "done"` without supplying `completed`
leaves `completed` unchanged — there is no symmetric forcing of
`completed` by `status`. -/
theorem update_frame (task_id : Nat) (p : TaskUpdate) (st : Store) (now : Nat) :
    ∀ t0, findTask st task_id = some t0 →
    ∀ t', (update_task task_id p st now).1 = Except.ok t' →
      t'.id = t0.id ∧ t'.created_at = t0.created_at ∧
      (p.title = none → t'.title = t0.title) ∧
      (p.description = none → t'.description = t0.description) ∧
      (p.priority = none → t'.priority = t0.priority) ∧
      (p.dueDate = none → t'.due_date = t0.due_date) ∧
      (p.completed = none → t'.completed = t0.completed) ∧
      (p.status = none → p.completed = none → t'.status = t0.status) := by
  intro t0 hf t' ht
  obtain ⟨t0', hf', hv, rfl⟩ := update_task_ok task_id p st now t' ht
  rw [hf] at hf'
  cases hf'
  cases hc : p.completed with
  | none =>
    refine ⟨?_, ?_, ?_, ?_, ?_, ?_, ?_, ?_⟩ <;>
      intros <;>
      simp_all [applyUpdate, applyCompleted_none, applyFields_eq]
  | some b =>
    refine ⟨?_, ?_, ?_, ?_, ?_, ?_, ?_, ?_⟩ <;>
      intros <;>
      simp_all [applyUpdate, applyCompleted_eq, applyFields_eq]

/-- C5 witness: updating `task1` with only `priority = "low"` keeps id,
timestamps and every absent field. -/
theorem update_frame_witness :
    task1pr.id = task1.id ∧ task1pr.created_at = task1.created_at ∧
    (updPr.title = none → task1pr.title = task1.title) ∧
    (updPr.description = none → task1pr.description = task1.description) ∧
    (updPr.priority = none → task1pr.priority = task1.priority) ∧
    (updPr.dueDate = none → task1pr.due_date = task1.due_date) ∧
    (updPr.completed = none → task1pr.completed = task1.completed) ∧
    (updPr.status = none → updPr.completed = none → task1pr.status = task1.status) :=
  update_frame 1 updPr st1 5 task1 (by decide) task1pr (by decide)

/-- C10: a partial update can never clear an existing due date: the
resulting due date is the supplied one when the request carries a
non-null `dueDate` and the prior value otherwise, so a task whose due
date is set keeps a non-null due date through every successful
update. -/
theorem update_due_date_preserved (task_id : Nat) (p : TaskUpdate) (st : Store) (now : Nat) :
    ∀ t0, findTask st task_id = some t0 →
    ∀ t', (update_task task_id p st now).1 = Except.ok t' →
      t'.due_date = p.dueDate.or t0.due_date ∧
      (t0.due_date ≠ none → t'.due_date ≠ none) := by
  intro t0 hf t' ht
  obtain ⟨t0', hf', hv, rfl⟩ := update_task_ok task_id p st now t' ht
  rw [hf] at hf'
  cases hf'
  have hd : (applyUpdate p t0 now).due_date = p.dueDate.or t0.due_date := by
    cases hc : p.completed with
    | none => simp [applyUpdate, applyCompleted_none, applyFields_eq, hc]
    | some b => simp [applyUpdate, applyCompleted_eq, applyFields_eq, hc]
  refine ⟨hd, ?_⟩
  intro hne
  rw [hd]
  cases hdd : p.dueDate with
  | none => simpa [Option.or] using hne
  | some d => simp [Option.or]

/-- C10 witness: updating `task2` (due date set) with `dueDate = 42`
yields due date `42`, still non-null. -/
theorem update_due_date_preserved_witness :
    task2due.due_date = Option.or (some 42) task2.due_date ∧
    (task2.due_date ≠ none → task2due.due_date ≠ none) :=
  update_due_date_preserved 2 updDue st1 5 task2 (by decide) task2due (by decide)

/-! Helper lemmas about LIKE matching and the list pipeline. -/

/-- Unfolding: the empty pattern matches only the empty string. -/
theorem likeMatch_nil (s : List Char) : likeMatch [] s = s.isEmpty := by
  rw [likeMatch.eq_def]

/-- Unfolding: a leading `%` either matches nothing or consumes one
character. -/
theorem likeMatch_percent (ps s : List Char) :
    likeMatch ('%' :: ps) s =
      (likeMatch ps s ||
        (match s with
         | [] => false
         | _ :: s' => likeMatch ('%' :: ps) s')) := by
  conv_lhs => rw [likeMatch.eq_def]
  simp

/-- Unfolding: a non-`%` pattern head needs a character to consume. -/
theorem likeMatch_cons_nil (a : Char) (ha : a ≠ '%') (ps : List Char) :
    likeMatch (a :: ps) [] = false := by
  rw [likeMatch.eq_def]
  simp [ha]

/-- Unfolding: a non-`%` pattern head consumes exactly one character. -/
theorem likeMatch_cons_cons (a : Char) (ha : a ≠ '%') (ps : List Char) (c : Char)
    (s : List Char) :
    likeMatch (a :: ps) (c :: s) = ((a == '_' || a == c) && likeMatch ps s) := by
  conv_lhs => rw [likeMatch.eq_def]
  simp [ha]

/-- A leading `%` matches exactly when the rest of the pattern matches
some suffix. -/
theorem likeMatch_percent_iff (ps s : List Char) :
    likeMatch ('%' :: ps) s = true ↔ ∃ s', s' <:+ s ∧ likeMatch ps s' = true := by
  induction s with
  | nil =>
    rw [likeMatch_percent]
    simp [List.suffix_nil]
  | cons c s' ih =>
    rw [likeMatch_percent]
    simp only [Bool.or_eq_true]
    constructor
    · rintro (h | h)
      · exact ⟨c :: s', List.suffix_refl _, h⟩
      · obtain ⟨u, hu, hm⟩ := ih.mp h
        exact ⟨u, hu.trans (List.suffix_cons c s'), hm⟩
    · rintro ⟨u, hu, hm⟩
      rcases List.suffix_cons_iff.mp hu with h | h
      · subst h
        exact Or.inl hm
      · exact Or.inr (ih.mpr ⟨u, h, hm⟩)

/-- A wildcard-free pattern followed by `%` matches exactly the strings
it prefixes. -/
theorem likeMatch_literal_iff (qc : List Char) (hq : ∀ c ∈ qc, c ≠ '%' ∧ c ≠ '_')
    (s : List Char) :
    likeMatch (qc ++ ['%']) s = true ↔ qc <+: s := by
  induction qc generalizing s with
  | nil =>
    simp only [List.nil_append]
    rw [likeMatch_percent_iff]
    constructor
    · intro _
      exact List.nil_prefix
    · intro _
      exact ⟨[], List.nil_suffix, by rw [likeMatch_nil]; rfl⟩
  | cons a qc ih =>
    have ha := hq a (List.mem_cons_self a qc)
    cases s with
    | nil =>
      rw [List.cons_append, likeMatch_cons_nil a ha.1]
      simp
    | cons c s' =>
      rw [List.cons_append, likeMatch_cons_cons a ha.1, List.cons_prefix_cons]
      have hu : (a == '_') = false := by simpa using ha.2
      rw [hu]
      simp only [Bool.false_or, Bool.and_eq_true, beq_iff_eq]
      rw [ih (fun c hc => hq c (List.mem_cons_of_mem a hc))]

/-- For a wildcard-free fragment `qc`, the pattern `%qc%` matches
exactly the strings containing `qc` as a contiguous substring. -/
theorem likeMatch_infix (qc : List Char) (hq : ∀ c ∈ qc, c ≠ '%' ∧ c ≠ '_')
    (sc : List Char) :
    likeMatch ('%' :: (qc ++ ['%'])) sc = true ↔ qc <:+: sc := by
  rw [likeMatch_percent_iff]
  constructor
  · rintro ⟨s', hs', hm⟩
    exact List.infix_iff_prefix_suffix.mpr ⟨s', (likeMatch_literal_iff qc hq s').mp hm, hs'⟩
  · intro h
    obtain ⟨u, hpre, hsuf⟩ := List.infix_iff_prefix_suffix.mp h
    exact ⟨u, hsuf, (likeMatch_literal_iff qc hq u).mpr hpre⟩

/-- Membership in one optional, truthiness-guarded filter stage. -/
theorem mem_optFilter (o : Option String) (f : String → Task → Bool) (ts : List Task)
    (t : Task) :
    (t ∈ (match o with
          | none => ts
          | some x => if x.isEmpty then ts else ts.filter (fun u => f x u))) ↔
      (t ∈ ts ∧ ∀ x, o = some x → x ≠ "" → f x t = true) := by
  cases o with
  | none => simp
  | some x =>
    by_cases hx : x.isEmpty = true
    · have hx' : x = "" := (String.isEmpty_iff x).mp hx
      subst hx'
      simp [hx]
    · have hx' : x ≠ "" := fun h => hx ((String.isEmpty_iff x).mpr h)
      simp [hx, List.mem_filter, hx']

/-- Membership in the `show_completed` filter stage. -/
theorem mem_boolFilter (b : Bool) (ts : List Task) (t : Task) :
    (t ∈ if b then ts else ts.filter (fun u => u.completed == false)) ↔
      (t ∈ ts ∧ (b = false → t.completed = false)) := by
  cases b <;> simp [List.mem_filter]

/-- Membership in the composed filter pipeline of `list_tasks`. -/
theorem mem_filterTasks_iff (p : ListParams) (ts : List Task) (t : Task) :
    t ∈ filterTasks p ts ↔
      (t ∈ ts ∧
       (∀ q, p.q = some q → q ≠ "" →
         (ilike t.title ("%" ++ q ++ "%") || ilike t.description ("%" ++ q ++ "%")) = true) ∧
       (∀ s, p.status = some s → s ≠ "" → t.status = s) ∧
       (∀ pr, p.priority = some pr → pr ≠ "" → t.priority = pr) ∧
       (p.show_completed = false → t.completed = false)) := by
  unfold filterTasks
  rw [mem_boolFilter, mem_optFilter, mem_optFilter, mem_optFilter]
  simp only [beq_iff_eq, and_assoc]

/-- Everything the filter pipeline returns came from the input list. -/
theorem filterTasks_subset (p : ListParams) (ts : List Task) (t : Task)
    (h : t ∈ filterTasks p ts) : t ∈ ts :=
  ((mem_filterTasks_iff p ts t).mp h).1

/-- Everything a successful list response contains passed the filter
pipeline. -/
theorem list_tasks_ok_mem (p : ListParams) (st : Store) (l : List Task)
    (h : list_tasks p st = Except.ok l) :
    ∀ t, t ∈ l → t ∈ filterTasks p st.tasks := by
  intro t ht
  by_cases hv : p.valid = true
  · simp only [list_tasks, hv, if_true] at h
    cases h
    have h1 : t ∈ (filterTasks p st.tasks).insertionSort createdDesc :=
      List.take_subset _ _ ht
    exact (List.mem_insertionSort createdDesc).mp h1
  · simp [list_tasks, hv] at h

/-- C6 counterexample: with the free-text query `"x_z"`, the task with
title `"xyz"` (and empty description) is returned by the list
operation, although `"x_z"` is not a case-insensitive substring of its
title or description — the underscore in the query acts as a LIKE
wildcard. -/
theorem list_query_substring_counterexample :
    ¬ (("x_z".toList.map Char.toLower) <:+: ("xyz".toList.map Char.toLower)) ∧
    ¬ (("x_z".toList.map Char.toLower) <:+: ("".toList.map Char.toLower)) ∧
    list_tasks pWild stQ = Except.ok [qTask] := by
  refine ⟨by decide, by decide, ?_⟩
  have hf : filterTasks pWild stQ.tasks = [qTask] := by
    simp [filterTasks, pWild, defaultListParams, stQ, qTask, ilike, likeMatch]
  have hv : pWild.valid = true := by decide
  simp only [list_tasks, hv, if_true, hf]
  simp [List.insertionSort, List.orderedInsert, pWild, defaultListParams,
        List.take_of_length_le]

/-- C6 (amended): the applied list filter is the conjunction of the
supplied criteria, where the free-text criterion is SQL LIKE matching
of the pattern `%q%` (case-insensitively) against title or description
— `%` and `_` inside `q` act as wildcards — rather than plain
substring containment; for a `q` free of wildcard characters, LIKE
matching of `%q%` coincides with substring containment.  Status and
priority filters match by exact equality and `show_completed = false`
excludes every completed task; every task a list response returns
passed this filter. -/
theorem list_filter_conjunction (p : ListParams) (st : Store) :
    (∀ t, t ∈ filterTasks p st.tasks ↔
      (t ∈ st.tasks ∧
       (∀ q, p.q = some q → q ≠ "" →
         (ilike t.title ("%" ++ q ++ "%") || ilike t.description ("%" ++ q ++ "%")) = true) ∧
       (∀ s, p.status = some s → s ≠ "" → t.status = s) ∧
       (∀ pr, p.priority = some pr → pr ≠ "" → t.priority = pr) ∧
       (p.show_completed = false → t.completed = false))) ∧
    (∀ l, list_tasks p st = Except.ok l → ∀ t, t ∈ l → t ∈ filterTasks p st.tasks) ∧
    (∀ qc sc : List Char, (∀ c ∈ qc, c ≠ '%' ∧ c ≠ '_') →
      (likeMatch ('%' :: (qc ++ ['%'])) sc = true ↔ qc <:+: sc)) :=
  ⟨fun t => mem_filterTasks_iff p st.tasks t,
   fun l h t ht => list_tasks_ok_mem p st l h t ht,
   fun qc sc hq => likeMatch_infix qc hq sc⟩

/-- C6 witness: the wildcard-free pattern `%milk%` matches `"a milk"`
exactly as substring containment, and `task1` (title `"Buy milk"`)
passes the filter for the query `"milk"`. -/
theorem list_filter_conjunction_witness :
    likeMatch ('%' :: (['m','i','l','k'] ++ ['%'])) ['a','m','i','l','k'] = true ∧
    task1 ∈ filterTasks pQ st1.tasks :=
  ⟨((list_filter_conjunction pQ st1).2.2 ['m','i','l','k'] ['a','m','i','l','k']
      (by decide)).mpr (by decide),
   ((list_filter_conjunction pQ st1).1 task1).mpr
     ⟨by decide,
      fun q hq hne => by
        simp only [pQ, defaultListParams, Option.some.injEq] at hq
        subst hq
        simp [ilike, likeMatch, task1],
      fun s hs hne => by simp [pQ, defaultListParams] at hs,
      fun pr hpr hne => by simp [pQ, defaultListParams] at hpr,
      fun h => by simp [pQ, defaultListParams] at h⟩⟩

/-- C7: a successful list response is ordered by creation time
descending and holds at most `limit` tasks; `limit` defaults to 200 and
a limit outside 1–1000 is rejected with a validation error. -/
theorem list_order_and_limit (p : ListParams) (st : Store) :
    (∀ l, list_tasks p st = Except.ok l →
      l.Pairwise (fun a b => b.created_at ≤ a.created_at) ∧ l.length ≤ p.limit) ∧
    ((p.limit < 1 ∨ 1000 < p.limit) → list_tasks p st = Except.error 422) ∧
    defaultListParams.limit = 200 := by
  refine ⟨?_, ?_, rfl⟩
  · intro l h
    by_cases hv : p.valid = true
    · simp only [list_tasks, hv, if_true] at h
      cases h
      constructor
      · have hs : ((filterTasks p st.tasks).insertionSort createdDesc).Pairwise createdDesc :=
          List.sorted_insertionSort createdDesc (filterTasks p st.tasks)
        exact hs.sublist (List.take_sublist _ _)
      · exact List.length_take_le p.limit ((filterTasks p st.tasks).insertionSort createdDesc)
    · simp [list_tasks, hv] at h
  · intro h
    have hlim : (1 ≤ p.limit && p.limit ≤ 1000) = false := by
      rcases h with h | h <;> simp <;> omega
    have hv : p.valid = false := by
      unfold ListParams.valid
      rw [hlim]
      simp
    simp [list_tasks, hv]

/-- C7 witness: listing `st1` with the defaults returns the two rows
most recent first, within the default limit 200, and the out-of-range
limit 2000 is rejected with 422. -/
theorem list_order_and_limit_witness :
    (List.Pairwise (fun a b : Task => b.created_at ≤ a.created_at) [task2, task1] ∧
      [task2, task1].length ≤ defaultListParams.limit) ∧
    list_tasks pBig st1 = Except.error 422 :=
  ⟨(list_order_and_limit defaultListParams st1).1 [task2, task1] (by decide),
   (list_order_and_limit pBig st1).2.1 (Or.inr (by decide))⟩

/-- C8: deleting an existing id removes the row permanently — the
response is empty (204), the id can no longer be found, no list result
ever contains a task with that id again, and a second delete of the
same id fails with 404; deleting a nonexistent id fails with 404 and
leaves the store unchanged. -/
theorem delete_task_spec (task_id : Nat) (st : Store) :
    (findTask st task_id = none → delete_task task_id st = (Except.error 404, st)) ∧
    (findTask st task_id ≠ none →
      (delete_task task_id st).1 = Except.ok () ∧
      findTask (delete_task task_id st).2 task_id = none ∧
      (∀ p l, list_tasks p (delete_task task_id st).2 = Except.ok l →
        ∀ t, t ∈ l → t.id ≠ task_id) ∧
      delete_task task_id (delete_task task_id st).2 =
        (Except.error 404, (delete_task task_id st).2)) := by
  constructor
  · intro h
    simp [delete_task, h]
  · intro h
    obtain ⟨t0, h0⟩ := Option.ne_none_iff_exists'.mp h
    have hstore : (delete_task task_id st).2.tasks =
        st.tasks.filter (fun t => !(t.id == task_id)) := by
      simp [delete_task, h0]
    have hfind : findTask (delete_task task_id st).2 task_id = none := by
      rw [findTask, hstore]
      rw [List.find?_eq_none]
      intro t ht
      have := (List.mem_filter.mp ht).2
      simpa using this
    refine ⟨by simp [delete_task, h0], hfind, ?_, ?_⟩
    · intro p l hl t htl
      have hmem := filterTasks_subset p _ t (list_tasks_ok_mem p _ l hl t htl)
      rw [hstore] at hmem
      have := (List.mem_filter.mp hmem).2
      simpa using this
    · have hfind2 := hfind
      generalize hgen : (delete_task task_id st).2 = st2 at hfind2 ⊢
      simp [delete_task, hfind2]

/-- C8 witness: deleting id 1 from `st1` succeeds, makes id 1
unfindable and unlistable, and a second delete returns 404; deleting
the absent id 99 returns 404 unchanged. -/
theorem delete_task_spec_witness :
    ((delete_task 1 st1).1 = Except.ok () ∧
      findTask (delete_task 1 st1).2 1 = none ∧
      (∀ p l, list_tasks p (delete_task 1 st1).2 = Except.ok l →
        ∀ t, t ∈ l → t.id ≠ 1) ∧
      delete_task 1 (delete_task 1 st1).2 = (Except.error 404, (delete_task 1 st1).2)) ∧
    delete_task 99 st1 = (Except.error 404, st1) :=
  ⟨(delete_task_spec 1 st1).2 (by decide), (delete_task_spec 99 st1).1 (by decide)⟩

/-- C9: the diagnostic probe never raises: whatever the outcome of the
no-op connectivity query, the response is HTTP 200 with a diagnostic
object that reports `"connected"` on success and an inline error
summary (truncated to 120 characters) on failure. -/
theorem test_database_never_raises (probe : Except String Unit) :
    (test_database probe).statusCode = 200 ∧
    (probe = Except.ok () → (test_database probe).database = "connected") ∧
    (∀ e, probe = Except.error e →
      (test_database probe).database = "error: " ++ String.mk (e.data.take 120)) := by
  refine ⟨rfl, ?_, ?_⟩
  · intro h
    subst h
    rfl
  · intro e h
    subst h
    rfl

/-- C9 witness: both probe outcomes produce their diagnostic body. -/
theorem test_database_never_raises_witness :
    (test_database (Except.ok ())).database = "connected" ∧
    (test_database (Except.error "boom")).database =
      "error: " ++ String.mk ("boom".data.take 120) :=
  ⟨(test_database_never_raises (Except.ok ())).2.1 rfl,
   (test_database_never_raises (Except.error "boom")).2.2 "boom" rfl⟩

end TaskApi
